import Mathlib

/-!
Verification development for the routhing-calculator repository
(src/tms_distance_calculator.py, src/tms_excel_processor.py, src/app.py).

The repository contains three variants of the same routing pipeline:
a CLI calculator, an Excel batch processor, and a Streamlit web app.
The route-computation functions `_try_route` / `calculate_route` are
textually identical across the three files; the itinerary loop of
`tms_excel_processor.process_group` is identical to the Excel loop in
`app.py` (calc_excel); `app.py` additionally has a manual-entry loop
(calc_manual) with different bookkeeping.

Modelling conventions:
* Coordinates (Python floats, degrees) are modelled as rationals `ℚ`.
  No claim depends on floating-point rounding of coordinates; only the
  order and identity of probed coordinate pairs matter.
* Distances / durations / provider result codes (Python ints from JSON)
  are modelled as `Int`.
* Network interaction (`requests.get` inside `_try_route` and
  `validate_address`) is modelled by oracle functions passed as
  parameters; the list of probed coordinate pairs is returned as an
  explicit trace.
* Python `//` and `%` always appear here with positive literal divisors,
  where Python's floor-division semantics coincide with `Int.ediv` /
  `Int.emod`, which we use.
-/

/-- An ordered origin/destination coordinate pair
`(origin_x, origin_y, dest_x, dest_y)` as passed to `_try_route`. -/
abbrev Quad : Type := ℚ × ℚ × ℚ × ℚ

/-- Oracle for one `_try_route` call: the provider either yields no
usable response (`none`: transport error, non-2xx, malformed JSON, or an
empty `routes` list — all collapsed by `_try_route` into `return None`)
or a triple `(distance, duration, result_code)`.  `_try_route` returns
`(0, 0, code)` when `result_code = code ≠ 0` and `(distance, duration, 0)`
on result code 0, so the oracle directly models `_try_route`'s value. -/
abbrev Probe : Type := ℚ → ℚ → ℚ → ℚ → Option (Int × Int × Int)

/-- Apply a probe oracle to a coordinate quadruple. -/
def probeQ (p : Probe) (q : Quad) : Option (Int × Int × Int) :=
  p q.1 q.2.1 q.2.2.1 q.2.2.2

/-- The acceptance test used by `calculate_route` on a `_try_route`
value: `adj_result and adj_result[2] == 0 and adj_result[0] > 0`
(a non-`None` result with result code 0 and strictly positive distance). -/
def routeOk : Option (Int × Int × Int) → Bool
  | some (d, _, c) => decide (c = 0) && decide (0 < d)
  | none => false

/-- Project the `(distance, duration)` pair out of a `_try_route` value,
as `calculate_route` does when the acceptance test passes. -/
def routeVal : Option (Int × Int × Int) → Option (Int × Int)
  | some (d, t, _) => some (d, t)
  | none => none

/-- The fixed offset list of `calculate_route` (identical in all three
source files): four 0.0005-degree cardinal steps, four 0.0005-degree
diagonal steps, then four 0.001-degree cardinal steps. -/
def offsets : List (ℚ × ℚ) :=
  [(0.0005, 0), (-0.0005, 0),
   (0, 0.0005), (0, -0.0005),
   (0.0005, 0.0005), (-0.0005, 0.0005),
   (-0.0005, -0.0005), (0.0005, -0.0005),
   (0.001, 0), (-0.001, 0),
   (0, 0.001), (0, -0.001)]

/-- For one offset `(dx, dy)`, the three perturbed coordinate pairs that
`calculate_route` probes, in source order: origin perturbed, destination
perturbed, both perturbed identically. -/
def offsetVariants (ox oy dx dy : ℚ) (o : ℚ × ℚ) : List Quad :=
  [(ox + o.1, oy + o.2, dx, dy),
   (ox, oy, dx + o.1, dy + o.2),
   (ox + o.1, oy + o.2, dx + o.1, dy + o.2)]

/-- The full ordered list of the 36 retry probes of `calculate_route`'s
retry loop: for each offset in `offsets` order, the three variants in
`offsetVariants` order. -/
def attempts (ox oy dx dy : ℚ) : List Quad :=
  offsets.flatMap (offsetVariants ox oy dx dy)

/-- The retry loop of `calculate_route`: probe the quadruples in order,
returning the first accepted `(distance, duration)` together with the
trace of quadruples actually probed (the accepted one included). -/
def runAttempts (p : Probe) : List Quad → Option (Int × Int) × List Quad
  | [] => (none, [])
  | q :: rest =>
    if routeOk (probeQ p q) then (routeVal (probeQ p q), [q])
    else
      let r := runAttempts p rest
      (r.1, q :: r.2)

/-- `calculate_route` (identical in `tms_distance_calculator.py`,
`tms_excel_processor.py` and `app.py`), instrumented to also return the
trace of coordinate quadruples probed, in order.  First the unmodified
pair is probed; a `None` reply is an immediate failure; a result with
code 0 and positive distance is returned at once; codes 104/105/106
enter the retry loop over `attempts`; every other outcome (other
non-zero codes, or code 0 with non-positive distance) falls through to
`return None` with no retry. -/
def calculateRouteR (p : Probe) (ox oy dx dy : ℚ) :
    Option (Int × Int) × List Quad :=
  match p ox oy dx dy with
  | none => (none, [(ox, oy, dx, dy)])
  | some (d, t, c) =>
    if c = 0 ∧ 0 < d then (some (d, t), [(ox, oy, dx, dy)])
    else if c = 104 ∨ c = 105 ∨ c = 106 then
      ((runAttempts p (attempts ox oy dx dy)).1,
       (ox, oy, dx, dy) :: (runAttempts p (attempts ox oy dx dy)).2)
    else (none, [(ox, oy, dx, dy)])

/-- The value returned by `calculate_route`. -/
def calculateRoute (p : Probe) (ox oy dx dy : ℚ) : Option (Int × Int) :=
  (calculateRouteR p ox oy dx dy).1

/-- The list of coordinate quadruples `calculate_route` sends to the
directions provider, in order. -/
def calculateRouteTrace (p : Probe) (ox oy dx dy : ℚ) : List Quad :=
  (calculateRouteR p ox oy dx dy).2

/-- Round-half-to-even of a rational, the rounding mode of Python's
built-in `round`.  Used to model `round(meters / 1000, 1)` and
`round(seconds / 60)` exactly on the rational value; the source rounds
the binary-float quotient, which agrees with the rational rounding at
every value appearing in a theorem below. -/
def roundHalfEven (q : ℚ) : Int :=
  if q - Int.floor q < 1 / 2 then Int.floor q
  else if 1 / 2 < q - Int.floor q then Int.floor q + 1
  else if Int.floor q % 2 = 0 then Int.floor q else Int.floor q + 1

/-- `meters_to_km(meters) = round(meters / 1000, 1)` from
`tms_excel_processor.py` / `app.py`, represented in tenths of a
kilometre so the result stays an integer: the dict value is this
number divided by 10. -/
def metersToKmTenths (m : Int) : Int :=
  roundHalfEven ((m : ℚ) / 100)

/-- `seconds_to_minutes(seconds) = round(seconds / 60)`. -/
def secondsToMinutes (s : Int) : Int :=
  roundHalfEven ((s : ℚ) / 60)

/-- `format_duration(total_seconds)` renders `f"{h}시간 {m}분"` (or just
minutes when `h = 0`); its information content is the (hours, minutes)
pair `(s // 3600, (s % 3600) // 60)`.  `Int` division and remainder
here are the Euclidean operations, which coincide with Python's floor
division for these positive divisors. -/
def formatDuration (s : Int) : Int × Int :=
  (s / 3600, s % 3600 / 60)

/-- One input row (`Stop`): spreadsheet / table columns
배송호차 (vehicle), 운행순번 (sequence, `int(row['운행순번'])`),
거래처명 (customer name), 거래처주소 (customer address). -/
structure Stop where
  vehicle : String
  seq : Int
  name : String
  address : String
deriving DecidableEq, Repr

/-- The loop state of `process_group` / the `calc_excel` loop:
current position `(current_x, current_y)`, current label
`current_name`, and the running totals `cumulative_distance` /
`cumulative_duration` (exact integer meters / seconds). -/
structure GState where
  x : ℚ
  y : ℚ
  label : String
  cumDist : Int
  cumDur : Int
deriving DecidableEq, Repr

/-- One output dict of `process_group` / `calc_excel` (a `SegmentResult`).
`segDist`/`segDur` are `none` for the `"-"` cells of failed rows and
`some` of the raw meters/seconds otherwise; the dict's 구간거리(km),
구간소요시간(분), 누적거리(km) and 누적시간 cells hold
`metersToKmTenths`, `secondsToMinutes`, `metersToKmTenths` and
`formatDuration` of these raw values (see the display accessors below). -/
structure SegmentResult where
  vehicle : String
  seq : Int
  fromLabel : String
  toLabel : String
  segDist : Option Int
  segDur : Option Int
  cumDist : Int
  cumDur : Int
  note : String
deriving DecidableEq, Repr

/-- The 누적거리(km) cell actually written to the row, in tenths of km. -/
def SegmentResult.cumDistDisplay (r : SegmentResult) : Int :=
  metersToKmTenths r.cumDist

/-- The 누적시간 cell actually written to the row, as its
(hours, minutes) content. -/
def SegmentResult.cumDurDisplay (r : SegmentResult) : Int × Int :=
  formatDuration r.cumDur

/-- Oracle for `validate_address`: `none` when both geocoding tiers
fail, otherwise `(x, y, formatted_address)`. -/
abbrev Resolver : Type := String → Option (ℚ × ℚ × String)

/-- Oracle for `calculate_route` as used by the itinerary loops:
`none` on failure, `(distance, duration)` on success. -/
abbrev Router : Type := ℚ → ℚ → ℚ → ℚ → Option (Int × Int)

/-- The body of the per-stop loop of `process_group`
(`tms_excel_processor.py`, identical in `app.py`'s Excel path):
resolve the stop's address; on failure emit a row with `"-"` distance
cells, note "주소 확인 필요", totals unchanged, advance only the label;
on route failure emit a row with note "경로 계산 실패", totals
unchanged, advance position and label; on success add to the totals and
emit a row with the segment and (new) cumulative values and empty note. -/
def processStop (resolve : Resolver) (route : Router) (g : String)
    (st : GState) (s : Stop) : SegmentResult × GState :=
  match resolve s.address with
  | none =>
    (⟨g, s.seq, st.label, s.name, none, none, st.cumDist, st.cumDur,
      "주소 확인 필요"⟩,
     ⟨st.x, st.y, s.name, st.cumDist, st.cumDur⟩)
  | some (dx, dy, _) =>
    match route st.x st.y dx dy with
    | some (dist, dur) =>
      (⟨g, s.seq, st.label, s.name, some dist, some dur,
        st.cumDist + dist, st.cumDur + dur, ""⟩,
       ⟨dx, dy, s.name, st.cumDist + dist, st.cumDur + dur⟩)
    | none =>
      (⟨g, s.seq, st.label, s.name, none, none, st.cumDist, st.cumDur,
        "경로 계산 실패"⟩,
       ⟨dx, dy, s.name, st.cumDist, st.cumDur⟩)

/-- The whole per-stop loop of `process_group`, over an already-sorted
stop list, returning the emitted rows and the final state. -/
def processSorted (resolve : Resolver) (route : Router) (g : String) :
    GState → List Stop → List SegmentResult × GState
  | st, [] => ([], st)
  | st, s :: rest =>
    let p := processStop resolve route g st s
    let q := processSorted resolve route g p.2 rest
    (p.1 :: q.1, q.2)

/-- The ascending-by-운행순번 comparison used to sort a vehicle group. -/
def seqLe (a b : Stop) : Bool :=
  a.seq ≤ b.seq

/-- `group_df.sort_values('운행순번')`: ascending sort by sequence.
Modelled with a stable merge sort; pandas' default quicksort guarantees
the ascending order but not the relative order of equal keys, and no
theorem below depends on the order of equal keys. -/
def sortStops (stops : List Stop) : List Stop :=
  stops.mergeSort seqLe

/-- `process_group(group_name, group_df, origin_coords)`: sort the
group's rows by 운행순번, walk them from the origin position with label
"상차지", and return the result rows together with the final cumulative
distance and duration (the function's `return results,
cumulative_distance, cumulative_duration`). -/
def processGroup (resolve : Resolver) (route : Router) (g : String)
    (ox oy : ℚ) (stops : List Stop) : List SegmentResult × Int × Int :=
  ((processSorted resolve route g ⟨ox, oy, "상차지", 0, 0⟩
      (sortStops stops)).1,
   (processSorted resolve route g ⟨ox, oy, "상차지", 0, 0⟩
      (sortStops stops)).2.cumDist,
   (processSorted resolve route g ⟨ox, oy, "상차지", 0, 0⟩
      (sortStops stops)).2.cumDur)

/-- One result dict of `app.py`'s manual-entry loop (calc_manual):
`{"배송호차", "구간": f"{current_name} → {customer_name}",
"거리": format_distance(distance), "시간": format_duration(duration)}`;
the raw meters/seconds behind the two formatted cells are kept. -/
structure ManualRow where
  vehicle : String
  fromLabel : String
  toLabel : String
  distM : Int
  durS : Int
deriving DecidableEq, Repr

/-- The body of the per-stop loop of `app.py`'s calc_manual path: a row
is appended only when the address resolves and the route computation
succeeds; on address failure nothing is emitted and only the label
advances; on route failure nothing is emitted and position and label
advance. -/
def calcManualStep (resolve : Resolver) (route : Router) (g : String)
    (st : GState) (s : Stop) : Option ManualRow × GState :=
  match resolve s.address with
  | none => (none, ⟨st.x, st.y, s.name, st.cumDist, st.cumDur⟩)
  | some (dx, dy, _) =>
    match route st.x st.y dx dy with
    | some (dist, dur) =>
      (some ⟨g, st.label, s.name, dist, dur⟩,
       ⟨dx, dy, s.name, st.cumDist + dist, st.cumDur + dur⟩)
    | none => (none, ⟨dx, dy, s.name, st.cumDist, st.cumDur⟩)

/-- The whole calc_manual per-stop loop over a sorted stop list. -/
def calcManualSorted (resolve : Resolver) (route : Router) (g : String) :
    GState → List Stop → List ManualRow × GState
  | st, [] => ([], st)
  | st, s :: rest =>
    let p := calcManualStep resolve route g st s
    let q := calcManualSorted resolve route g p.2 rest
    (match p.1 with | some r => r :: q.1 | none => q.1, q.2)

/-- The calc_manual group computation: sort by 운행순번, start at the
origin with label "상차지" and zero totals. -/
def calcManualGroup (resolve : Resolver) (route : Router) (g : String)
    (ox oy : ℚ) (stops : List Stop) : List ManualRow × GState :=
  calcManualSorted resolve route g ⟨ox, oy, "상차지", 0, 0⟩
    (sortStops stops)

/-- One 호차별요약 dict (a `VehicleSummary`): 배송호차, 거래처수
(`len(group_df)`), and the group totals (raw meters/seconds behind the
formatted 총 운행거리(km) / 총 운행시간 cells). -/
structure VehicleSummary where
  vehicle : String
  stopCount : Nat
  totalDist : Int
  totalDur : Int
deriving DecidableEq, Repr

/-- The distinct vehicle identifiers of the input, as produced by
`df.groupby('배송호차')`: one group per distinct key.  `List.dedup`
keeps one occurrence of each key; pandas emits the groups in sorted key
order, and no theorem below depends on the order of the groups. -/
def vehicleIds (stops : List Stop) : List String :=
  (stops.map (fun s => s.vehicle)).dedup

/-- The rows of one vehicle's group, in input order, as produced by
`df.groupby('배송호차')` (grouping preserves the original row order
inside each group). -/
def vehicleGroup (stops : List Stop) (v : String) : List Stop :=
  stops.filter (fun s => s.vehicle == v)

/-- The per-vehicle summary loop of `tms_excel_processor.main` (and of
`app.py`'s calc_excel): for each group, run `process_group` and record
`{"배송호차": group_name, "거래처수": len(group_df),
"총 운행거리(km)", "총 운행시간"}`. -/
def batchSummaries (resolve : Resolver) (route : Router) (ox oy : ℚ)
    (stops : List Stop) : List VehicleSummary :=
  (vehicleIds stops).map (fun v =>
    let g := vehicleGroup stops v
    let p := processGroup resolve route v ox oy g
    ⟨v, g.length, p.2.1, p.2.2⟩)

/-- `required_columns` of `tms_excel_processor.main` / `app.py`'s
upload handler. -/
def requiredColumns : List String :=
  ["배송호차", "운행순번", "거래처명", "거래처주소"]

/-- `[col for col in required_columns if col not in df.columns]`. -/
def missingColumns (present : List String) : List String :=
  requiredColumns.filter (fun c => ! present.contains c)

/-- Observable events of the CLI flow, at the granularity the claims
speak about: a `validate_address` call (network), a `calculate_route`
probe (network), and the rejection message naming missing columns. -/
inductive Event where
  | geocode (addr : String)
  | probe (q : Quad)
  | reject (missing : List String)
deriving DecidableEq, Repr

/-- Whether an event is an outbound network interaction. -/
def Event.isNetwork : Event → Bool
  | .geocode _ => true
  | .probe _ => true
  | .reject _ => false

/-- The menu-option-2 flow of `tms_excel_processor.main`, up to and
including the required-column validation: `get_origin_address()` calls
`validate_address` on the origin (a network call) first, then the Excel
file is read and `missing_columns` computed; a non-empty result prints
"필수 컬럼이 없습니다: [...]" and abandons the run.  The trace stops at
the validation outcome; the continuation on success is not needed by
any claim. -/
def cliValidationTrace (originAddr : String) (present : List String) :
    List Event :=
  Event.geocode originAddr ::
    (if missingColumns present = [] then []
     else [Event.reject (missingColumns present)])

/-- The upload handler of `app.py` (lines 427-441): reading the file
and checking `required_columns` involves no network call; a non-empty
`missing_columns` surfaces `st.error` naming the missing columns and the
data is not loaded.  `some missing` models the rejection. -/
def uploadValidation (present : List String) : Option (List String) :=
  if missingColumns present = [] then none
  else some (missingColumns present)

/-- Per-row segment-distance contribution to the running total:
the raw meters for a successful row, 0 for a failed row. -/
def segDistContribution (r : SegmentResult) : Int :=
  r.segDist.getD 0

/-- Per-row segment-duration contribution to the running total. -/
def segDurContribution (r : SegmentResult) : Int :=
  r.segDur.getD 0

/-- A probe oracle with no usable provider response anywhere
(transport failure on every call). -/
def probeNone : Probe := fun _ _ _ _ => none

/-- A probe oracle that always reports the non-retriable result code
107. -/
def probeHard : Probe := fun _ _ _ _ => some (0, 0, 107)

/-- A probe oracle that always succeeds with distance 5, duration 7. -/
def probeOkFix : Probe := fun _ _ _ _ => some (5, 7, 0)

/-- A scripted probe for the retry-order claim: the original pair
(1, 2, 3, 4) is unreachable (code 105), the second retry combination
(destination perturbed by the first offset, so dest_x = 3 + 0.0005)
succeeds with (500, 60), and everything else fails. -/
def probeRetry : Probe := fun a b c d =>
  if c = 3 + 0.0005 then some (500, 60, 0)
  else if (a, b, c, d) = ((1 : ℚ), 2, 3, 4) then some (0, 0, 105)
  else none

/-- A resolver oracle that resolves every address to (5, 6). -/
def resolveAll : Resolver := fun a => some (5, 6, a)

/-- A resolver oracle that fails on every address. -/
def resolveNone : Resolver := fun _ => none

/-- A router oracle that always succeeds with 1234 m / 90 s. -/
def routeFix : Router := fun _ _ _ _ => some (1234, 90)

/-- A router oracle that always fails. -/
def routeNone : Router := fun _ _ _ _ => none

/-- A concrete stop used by witnesses and counterexamples. -/
def stopA : Stop :=
  ⟨"1호차", 1, "강남 물류센터", "서울특별시 강남구 테헤란로 152"⟩

/-- A second concrete stop, same vehicle, later sequence. -/
def stopB : Stop :=
  ⟨"1호차", 2, "판교 배송센터", "경기도 성남시 분당구 판교역로 235"⟩

/-- Any accepted `_try_route` value has strictly positive distance. -/
theorem routeOk_pos {r : Option (Int × Int × Int)} {d t : Int}
    (hok : routeOk r = true) (hval : routeVal r = some (d, t)) : 0 < d := by
  match r with
  | none => simp [routeOk] at hok
  | some (d0, t0, c0) =>
    simp only [routeOk, Bool.and_eq_true, decide_eq_true_eq] at hok
    simp only [routeVal, Option.some.injEq, Prod.mk.injEq] at hval
    omega

/-- The retry loop only ever returns a strictly positive distance. -/
theorem runAttempts_pos (p : Probe) (L : List Quad) (d t : Int)
    (h : (runAttempts p L).1 = some (d, t)) : 0 < d := by
  induction L with
  | nil => simp [runAttempts] at h
  | cons q rest ih =>
    by_cases hq : routeOk (probeQ p q) = true
    · simp only [runAttempts, hq, if_true] at h
      exact routeOk_pos hq h
    · simp only [runAttempts, Bool.not_eq_true] at hq
      simp only [runAttempts, hq, Bool.false_eq_true, if_false] at h
      exact ih h

/-- When the first accepted probe of the retry loop sits at index `N`,
the loop returns its value and probes exactly the first `N + 1`
quadruples, in list order. -/
theorem runAttempts_firstOk (p : Probe) (L : List Quad) (N : ℕ)
    (q : Quad) (d t : Int)
    (hfail : ∀ i, i < N → ∀ r, L[i]? = some r → routeOk (probeQ p r) = false)
    (hq : L[N]? = some q) (hok : routeOk (probeQ p q) = true)
    (hval : routeVal (probeQ p q) = some (d, t)) :
    runAttempts p L = (some (d, t), L.take (N + 1)) := by
  induction L generalizing N with
  | nil => simp at hq
  | cons a rest ih =>
    cases N with
    | zero =>
      simp only [List.getElem?_cons_zero, Option.some.injEq] at hq
      subst hq
      simp only [runAttempts, hok, if_true, hval, List.take_succ_cons,
        List.take_zero]
    | succ n =>
      have ha : routeOk (probeQ p a) = false :=
        hfail 0 (Nat.succ_pos n) a (by simp)
      simp only [runAttempts, ha, Bool.false_eq_true, if_false]
      have hrec := ih n
        (fun i hi r hr =>
          hfail (i + 1) (Nat.succ_lt_succ hi) r (by simpa using hr))
        (by simpa using hq)
      rw [hrec]
      simp [List.take_succ_cons]

/-- The retry loop probes at least one quadruple when its list is
non-empty. -/
theorem runAttempts_trace_ne_nil (p : Probe) (L : List Quad)
    (h : L ≠ []) : (runAttempts p L).2 ≠ [] := by
  cases L with
  | nil => exact absurd rfl h
  | cons q rest =>
    by_cases hq : routeOk (probeQ p q) = true
    · simp [runAttempts, hq]
    · simp only [Bool.not_eq_true] at hq
      simp [runAttempts, hq]

/-- The retry probe list is never empty (12 offsets, 3 variants each). -/
theorem attempts_ne_nil (ox oy dx dy : ℚ) : attempts ox oy dx dy ≠ [] := by
  simp [attempts, offsets, offsetVariants]

/-- `calculate_route` on a transport error / empty candidate list at
the first probe: immediate `None`, only the original pair probed. -/
theorem calculateRouteR_none (p : Probe) (ox oy dx dy : ℚ)
    (hp : p ox oy dx dy = none) :
    calculateRouteR p ox oy dx dy = (none, [(ox, oy, dx, dy)]) := by
  unfold calculateRouteR
  simp only [hp]

/-- `calculate_route` when the first probe is accepted (code 0 and
positive distance): the pair is returned, only the original probed. -/
theorem calculateRouteR_success (p : Probe) (ox oy dx dy : ℚ)
    (d t c : Int) (hp : p ox oy dx dy = some (d, t, c))
    (h1 : c = 0 ∧ 0 < d) :
    calculateRouteR p ox oy dx dy = (some (d, t), [(ox, oy, dx, dy)]) := by
  unfold calculateRouteR
  simp only [hp]
  rw [if_pos h1]

/-- `calculate_route` when the first probe reports a retriable code:
the result and trace come from the retry loop over `attempts`. -/
theorem calculateRouteR_retry (p : Probe) (ox oy dx dy : ℚ)
    (d t c : Int) (hp : p ox oy dx dy = some (d, t, c))
    (h1 : ¬ (c = 0 ∧ 0 < d)) (h2 : c = 104 ∨ c = 105 ∨ c = 106) :
    calculateRouteR p ox oy dx dy =
      ((runAttempts p (attempts ox oy dx dy)).1,
       (ox, oy, dx, dy) :: (runAttempts p (attempts ox oy dx dy)).2) := by
  unfold calculateRouteR
  simp only [hp]
  rw [if_neg h1, if_pos h2]

/-- `calculate_route` on any other first-probe reply (non-retriable
non-zero code, or code 0 with non-positive distance): immediate `None`,
only the original pair probed. -/
theorem calculateRouteR_hard (p : Probe) (ox oy dx dy : ℚ)
    (d t c : Int) (hp : p ox oy dx dy = some (d, t, c))
    (h1 : ¬ (c = 0 ∧ 0 < d)) (h2 : ¬ (c = 104 ∨ c = 105 ∨ c = 106)) :
    calculateRouteR p ox oy dx dy = (none, [(ox, oy, dx, dy)]) := by
  unfold calculateRouteR
  simp only [hp]
  rw [if_neg h1, if_neg h2]

/-- C1 (counterexample): the claim "for coordinates less than 100 m
apart, calculate_route returns Success{0,0} without any network call"
is false.  At the pair (1, 1) → (1, 1) — great-circle distance 0, below
any positive threshold — `calculate_route` still probes the provider
(the trace is exactly the unmodified pair) and, when the provider has
no answer, returns `None`, not `Success{0,0}`. -/
theorem c1_counterexample :
    calculateRoute probeNone 1 1 1 1 = none ∧
    calculateRouteTrace probeNone 1 1 1 1 = [(1, 1, 1, 1)] := by
  constructor <;> rfl

/-- C1 (amended): `calculate_route` has no same-location short-circuit:
for every coordinate pair — at any great-circle distance, including
pairs closer than 100 m — the first action is a probe of the unmodified
pair sent to the directions provider, so a network call is always
issued and the outcome is determined by the provider's responses. -/
theorem c1_no_short_circuit (p : Probe) (ox oy dx dy : ℚ) :
    (calculateRouteTrace p ox oy dx dy).head? = some (ox, oy, dx, dy) := by
  unfold calculateRouteTrace
  cases hp : p ox oy dx dy with
  | none => rw [calculateRouteR_none p ox oy dx dy hp]; rfl
  | some v =>
    obtain ⟨d, t, c⟩ := v
    by_cases h1 : c = 0 ∧ 0 < d
    · rw [calculateRouteR_success p ox oy dx dy d t c hp h1]; rfl
    · by_cases h2 : c = 104 ∨ c = 105 ∨ c = 106
      · rw [calculateRouteR_retry p ox oy dx dy d t c hp h1 h2]; rfl
      · rw [calculateRouteR_hard p ox oy dx dy d t c hp h1 h2]; rfl

/-- C3: the retry search of `calculate_route` is deterministic.  If the
first probe of the unmodified pair reports a retriable code
(104/105/106), and the scripted probe accepts exactly the combination
at (0-based) index `N` of the documented `attempts` list — offsets in
list order, and per offset the variants (origin perturbed, destination
perturbed, both perturbed identically) in that order — while rejecting
every earlier combination, then `calculate_route` returns that
combination's (distance, duration) and its probe trace is exactly the
unmodified pair followed by the first `N + 1` combinations, in
documented order (so exactly the `N` earlier combinations are tried
before the accepted one). -/
theorem c3_retry_order_deterministic (p : Probe) (ox oy dx dy : ℚ)
    (d0 t0 c : Int) (N : ℕ) (q : Quad) (d t : Int)
    (h0 : p ox oy dx dy = some (d0, t0, c))
    (hc : c = 104 ∨ c = 105 ∨ c = 106)
    (hfail : ∀ i, i < N → ∀ r, (attempts ox oy dx dy)[i]? = some r →
      routeOk (probeQ p r) = false)
    (hq : (attempts ox oy dx dy)[N]? = some q)
    (hok : routeOk (probeQ p q) = true)
    (hval : routeVal (probeQ p q) = some (d, t)) :
    calculateRoute p ox oy dx dy = some (d, t) ∧
    calculateRouteTrace p ox oy dx dy =
      (ox, oy, dx, dy) :: (attempts ox oy dx dy).take (N + 1) := by
  have hrun := runAttempts_firstOk p (attempts ox oy dx dy) N q d t
    hfail hq hok hval
  have hne : ¬ (c = 0 ∧ 0 < d0) := by
    rcases hc with h | h | h <;> omega
  have hR := calculateRouteR_retry p ox oy dx dy d0 t0 c h0 hne hc
  constructor
  · unfold calculateRoute
    rw [hR, hrun]
  · unfold calculateRouteTrace
    rw [hR, hrun]

/-- C3 (witness): with the scripted probe `probeRetry` on the pair
(1, 2) → (3, 4) — unreachable at the original pair, accepted exactly at
retry combination index 1 (first offset, destination-perturbed
variant) — `calculate_route` returns (500, 60) and probes exactly the
original pair followed by the first two retry combinations. -/
theorem c3_witness :
    calculateRoute probeRetry 1 2 3 4 = some (500, 60) ∧
    calculateRouteTrace probeRetry 1 2 3 4 =
      (1, 2, 3, 4) :: (attempts 1 2 3 4).take 2 := by
  have h01 : (attempts 1 2 3 4)[0]? =
      some ((1 : ℚ) + 0.0005, (2 : ℚ) + 0, (3 : ℚ), (4 : ℚ)) := by
    simp [attempts, offsets, offsetVariants]
  have h1 : (attempts 1 2 3 4)[1]? =
      some ((1 : ℚ), (2 : ℚ), (3 : ℚ) + 0.0005, (4 : ℚ) + 0) := by
    simp [attempts, offsets, offsetVariants]
  have hprobe0 : probeQ probeRetry ((1 : ℚ) + 0.0005, (2 : ℚ) + 0,
      (3 : ℚ), (4 : ℚ)) = none := by
    unfold probeQ probeRetry
    norm_num
  have hprobe1 : probeQ probeRetry ((1 : ℚ), (2 : ℚ),
      (3 : ℚ) + 0.0005, (4 : ℚ) + 0) = some (500, 60, 0) := by
    unfold probeQ probeRetry
    norm_num
  have h0 : probeRetry 1 2 3 4 = some (0, 0, 105) := by
    unfold probeRetry
    norm_num
  exact c3_retry_order_deterministic probeRetry 1 2 3 4 0 0 105 1
    ((1 : ℚ), (2 : ℚ), (3 : ℚ) + 0.0005, (4 : ℚ) + 0) 500 60 h0
    (Or.inr (Or.inl rfl))
    (by
      intro i hi r hr
      interval_cases i
      rw [h01] at hr
      obtain rfl : r = ((1 : ℚ) + 0.0005, (2 : ℚ) + 0, (3 : ℚ), (4 : ℚ)) :=
        by simpa using hr.symm
      rw [hprobe0]
      rfl)
    h1 (by rw [hprobe1]; rfl) (by rw [hprobe1]; rfl)

/-- C4: the first probe's outcome classifies exactly as the claim says:
the coordinate-perturbation retry loop runs (the trace is longer than
one probe) if and only if the first probe yields a provider reply with
result code in {104, 105, 106}; and when the first probe is a transport
error / empty candidate list (`none`), or any reply that is neither
accepted (code 0 with positive distance) nor retriable — in particular
any other non-zero code, and code 0 with non-positive distance — the
function returns `None` having probed only the original pair. -/
theorem c4_retry_classification (p : Probe) (ox oy dx dy : ℚ) :
    (1 < (calculateRouteTrace p ox oy dx dy).length ↔
      (∃ d t c, p ox oy dx dy = some (d, t, c) ∧
        (c = 104 ∨ c = 105 ∨ c = 106))) ∧
    (p ox oy dx dy = none →
      calculateRoute p ox oy dx dy = none ∧
      calculateRouteTrace p ox oy dx dy = [(ox, oy, dx, dy)]) ∧
    (∀ d t c, p ox oy dx dy = some (d, t, c) → ¬ (c = 0 ∧ 0 < d) →
      ¬ (c = 104 ∨ c = 105 ∨ c = 106) →
      calculateRoute p ox oy dx dy = none ∧
      calculateRouteTrace p ox oy dx dy = [(ox, oy, dx, dy)]) := by
  refine ⟨?_, ?_, ?_⟩
  · constructor
    · intro hlen
      unfold calculateRouteTrace at hlen
      cases hp : p ox oy dx dy with
      | none =>
        rw [calculateRouteR_none p ox oy dx dy hp] at hlen
        simp at hlen
      | some v =>
        obtain ⟨d, t, c⟩ := v
        by_cases h1 : c = 0 ∧ 0 < d
        · rw [calculateRouteR_success p ox oy dx dy d t c hp h1] at hlen
          simp at hlen
        · by_cases h2 : c = 104 ∨ c = 105 ∨ c = 106
          · exact ⟨d, t, c, rfl, h2⟩
          · rw [calculateRouteR_hard p ox oy dx dy d t c hp h1 h2] at hlen
            simp at hlen
    · rintro ⟨d, t, c, hp, h2⟩
      have h1 : ¬ (c = 0 ∧ 0 < d) := by rcases h2 with h | h | h <;> omega
      unfold calculateRouteTrace
      rw [calculateRouteR_retry p ox oy dx dy d t c hp h1 h2]
      have hne := runAttempts_trace_ne_nil p (attempts ox oy dx dy)
        (attempts_ne_nil ox oy dx dy)
      have hpos : 0 < (runAttempts p (attempts ox oy dx dy)).2.length :=
        List.length_pos.mpr hne
      simp only [List.length_cons]
      omega
  · intro hp
    unfold calculateRoute calculateRouteTrace
    rw [calculateRouteR_none p ox oy dx dy hp]
    exact ⟨rfl, rfl⟩
  · intro d t c hp h1 h2
    unfold calculateRoute calculateRouteTrace
    rw [calculateRouteR_hard p ox oy dx dy d t c hp h1 h2]
    exact ⟨rfl, rfl⟩

/-- C4 (witness): with a probe that always reports the non-retriable
code 107, `calculate_route` on (1, 2) → (3, 4) does not retry (the
trace does not have length greater than 1), returns `None`, and the
trace is exactly the original pair. -/
theorem c4_witness :
    ¬ 1 < (calculateRouteTrace probeHard 1 2 3 4).length ∧
    calculateRoute probeHard 1 2 3 4 = none ∧
    calculateRouteTrace probeHard 1 2 3 4 = [(1, 2, 3, 4)] := by
  have h := c4_retry_classification probeHard 1 2 3 4
  have hmain := h.2.2 0 0 107 rfl (by omega) (by omega)
  refine ⟨?_, hmain.1, hmain.2⟩
  rw [hmain.2]
  simp

/-- C10: whenever `calculate_route` returns a (distance, duration) pair
rather than `None`, the distance is strictly positive: every return
site requires `distance > 0`, so a zero-distance success — including
the degenerate same-location `Success{0,0}` — is never produced. -/
theorem c10_positive_distance (p : Probe) (ox oy dx dy : ℚ) (d t : Int)
    (h : calculateRoute p ox oy dx dy = some (d, t)) : 0 < d := by
  unfold calculateRoute at h
  cases hp : p ox oy dx dy with
  | none =>
    rw [calculateRouteR_none p ox oy dx dy hp] at h
    simp at h
  | some v =>
    obtain ⟨d0, t0, c⟩ := v
    by_cases h1 : c = 0 ∧ 0 < d0
    · rw [calculateRouteR_success p ox oy dx dy d0 t0 c hp h1] at h
      simp only [Option.some.injEq, Prod.mk.injEq] at h
      omega
    · by_cases h2 : c = 104 ∨ c = 105 ∨ c = 106
      · rw [calculateRouteR_retry p ox oy dx dy d0 t0 c hp h1 h2] at h
        exact runAttempts_pos p (attempts ox oy dx dy) d t h
      · rw [calculateRouteR_hard p ox oy dx dy d0 t0 c hp h1 h2] at h
        simp at h

/-- C10 (witness): with a probe that succeeds at once with distance 5,
`calculate_route` returns (5, 7) and 5 is strictly positive. -/
theorem c10_witness :
    calculateRoute probeOkFix 1 2 3 4 = some (5, 7) ∧ (0 : Int) < 5 := by
  have hres : calculateRoute probeOkFix 1 2 3 4 = some (5, 7) := rfl
  exact ⟨hres, c10_positive_distance probeOkFix 1 2 3 4 5 7 hres⟩

/-- The emitted row of one `process_group` loop step carries the group
name, the stop's sequence and customer name, and the previous label as
origin, in every outcome case. -/
theorem processStop_fields (resolve : Resolver) (route : Router)
    (g : String) (st : GState) (s : Stop) :
    (processStop resolve route g st s).1.vehicle = g ∧
    (processStop resolve route g st s).1.seq = s.seq ∧
    (processStop resolve route g st s).1.toLabel = s.name ∧
    (processStop resolve route g st s).1.fromLabel = st.label := by
  cases hres : resolve s.address with
  | none => simp [processStop, hres]
  | some v =>
    obtain ⟨dx, dy, f⟩ := v
    cases hrt : route st.x st.y dx dy with
    | none => simp [processStop, hres, hrt]
    | some w => obtain ⟨dist, dur⟩ := w; simp [processStop, hres, hrt]

/-- In every outcome case of one `process_group` loop step, the emitted
row's cumulative cells are the incoming totals plus the row's own
contribution, and the outgoing state's totals equal the row's
cumulative cells. -/
theorem processStop_cum (resolve : Resolver) (route : Router)
    (g : String) (st : GState) (s : Stop) :
    (processStop resolve route g st s).1.cumDist =
      st.cumDist + segDistContribution (processStop resolve route g st s).1 ∧
    (processStop resolve route g st s).1.cumDur =
      st.cumDur + segDurContribution (processStop resolve route g st s).1 ∧
    (processStop resolve route g st s).2.cumDist =
      (processStop resolve route g st s).1.cumDist ∧
    (processStop resolve route g st s).2.cumDur =
      (processStop resolve route g st s).1.cumDur := by
  cases hres : resolve s.address with
  | none => simp [processStop, hres, segDistContribution, segDurContribution]
  | some v =>
    obtain ⟨dx, dy, f⟩ := v
    cases hrt : route st.x st.y dx dy with
    | none =>
      simp [processStop, hres, hrt, segDistContribution, segDurContribution]
    | some w =>
      obtain ⟨dist, dur⟩ := w
      simp [processStop, hres, hrt, segDistContribution, segDurContribution]

/-- `process_group`'s loop emits exactly one row per processed stop. -/
theorem processSorted_length (resolve : Resolver) (route : Router)
    (g : String) (st : GState) (l : List Stop) :
    (processSorted resolve route g st l).1.length = l.length := by
  induction l generalizing st with
  | nil => rfl
  | cons s rest ih => simp [processSorted, ih]

/-- The i-th emitted row of `process_group`'s loop corresponds to the
i-th processed stop: same position, carrying the group name, the stop's
sequence and its customer name. -/
theorem processSorted_pointwise (resolve : Resolver) (route : Router)
    (g : String) (st : GState) (l : List Stop) (i : ℕ) (r : SegmentResult)
    (hr : (processSorted resolve route g st l).1[i]? = some r) :
    ∃ s, l[i]? = some s ∧ r.vehicle = g ∧ r.seq = s.seq ∧
      r.toLabel = s.name := by
  induction l generalizing st i with
  | nil => simp [processSorted] at hr
  | cons s rest ih =>
    cases i with
    | zero =>
      simp only [processSorted, List.getElem?_cons_zero,
        Option.some.injEq] at hr
      obtain ⟨h1, h2, h3, _⟩ := processStop_fields resolve route g st s
      exact ⟨s, by simp, by rw [← hr]; exact h1, by rw [← hr]; exact h2,
        by rw [← hr]; exact h3⟩
    | succ n =>
      simp only [processSorted, List.getElem?_cons_succ] at hr
      obtain ⟨s0, hs0, hf⟩ :=
        ih (processStop resolve route g st s).2 n hr
      exact ⟨s0, by simpa using hs0, hf⟩

/-- Cumulative characterization of `process_group`'s loop: every emitted
row's cumulative cells equal the incoming totals plus the exact integer
sum of the contributions of the rows emitted so far (the row itself
included), and the final state's totals equal the full sum. -/
theorem processSorted_cum (resolve : Resolver) (route : Router)
    (g : String) (st : GState) (l : List Stop) (i : ℕ) (r : SegmentResult)
    (hr : (processSorted resolve route g st l).1[i]? = some r) :
    r.cumDist = st.cumDist +
      (((processSorted resolve route g st l).1.take (i + 1)).map
        segDistContribution).sum ∧
    r.cumDur = st.cumDur +
      (((processSorted resolve route g st l).1.take (i + 1)).map
        segDurContribution).sum := by
  induction l generalizing st i with
  | nil => simp [processSorted] at hr
  | cons s rest ih =>
    obtain ⟨hc1, hc2, hc3, hc4⟩ := processStop_cum resolve route g st s
    cases i with
    | zero =>
      simp only [processSorted, List.getElem?_cons_zero,
        Option.some.injEq] at hr
      subst hr
      simp only [processSorted, List.take_succ_cons, List.take_zero,
        List.map_cons, List.map_nil, List.sum_cons, List.sum_nil,
        add_zero]
      exact ⟨hc1, hc2⟩
    | succ n =>
      simp only [processSorted, List.getElem?_cons_succ] at hr
      obtain ⟨h1, h2⟩ := ih (processStop resolve route g st s).2 n hr
      constructor
      · rw [h1, hc3, hc1]
        simp only [processSorted, List.take_succ_cons, List.map_cons,
          List.sum_cons]
        ring
      · rw [h2, hc4, hc2]
        simp only [processSorted, List.take_succ_cons, List.map_cons,
          List.sum_cons]
        ring

/-- When the route oracle only reports non-negative distances and
durations, every emitted row's contribution is non-negative. -/
theorem processSorted_contribution_nonneg (resolve : Resolver)
    (route : Router) (g : String) (st : GState) (l : List Stop)
    (hroute : ∀ a b u v dist dur, route a b u v = some (dist, dur) →
      0 ≤ dist ∧ 0 ≤ dur)
    (r : SegmentResult) (hr : r ∈ (processSorted resolve route g st l).1) :
    0 ≤ segDistContribution r ∧ 0 ≤ segDurContribution r := by
  induction l generalizing st with
  | nil => simp [processSorted] at hr
  | cons s rest ih =>
    simp only [processSorted, List.mem_cons] at hr
    rcases hr with rfl | hr
    · cases hres : resolve s.address with
      | none =>
        simp [processStop, hres, segDistContribution, segDurContribution]
      | some v =>
        obtain ⟨dx, dy, f⟩ := v
        cases hroute2 : route st.x st.y dx dy with
        | none =>
          simp [processStop, hres, hroute2, segDistContribution,
            segDurContribution]
        | some w =>
          obtain ⟨dist, dur⟩ := w
          have := hroute st.x st.y dx dy dist dur hroute2
          simp only [processStop, hres, hroute2, segDistContribution,
            segDurContribution, Option.getD_some]
          exact this
    · exact ih (processStop resolve route g st s).2 hr

/-- Transitivity of the sort comparison on sequence numbers. -/
theorem seqLe_trans (a b c : Stop) (hab : seqLe a b = true)
    (hbc : seqLe b c = true) : seqLe a c = true := by
  simp only [seqLe, decide_eq_true_eq] at hab hbc ⊢
  omega

/-- Totality of the sort comparison on sequence numbers. -/
theorem seqLe_total (a b : Stop) : (seqLe a b || seqLe b a) = true := by
  simp only [seqLe, Bool.or_eq_true, decide_eq_true_eq]
  omega

/-- Sorting a group's stops is a permutation of the group. -/
theorem sortStops_perm (stops : List Stop) :
    (sortStops stops).Perm stops :=
  List.mergeSort_perm stops seqLe

/-- The sorted stop list is ascending by sequence number. -/
theorem sortStops_sorted (stops : List Stop) :
    List.Pairwise (fun a b : Stop => a.seq ≤ b.seq) (sortStops stops) := by
  have h := List.sorted_mergeSort seqLe_trans seqLe_total stops
  exact h.imp (fun hab => by simpa [seqLe] using hab)

/-- C2 (counterexample): the claim "the itinerary accumulator emits
exactly K SegmentResult rows for K input stops, whatever the
resolution/route outcomes" is false for the manual-entry loop of
`app.py` (cited by the claim): with one input stop whose address fails
to resolve, that loop appends no row at all — the stop is dropped from
the output (0 rows for 1 stop). -/
theorem c2_counterexample :
    (calcManualGroup resolveNone routeNone "1호차" 0 0 [stopA]).1 = [] ∧
    ([stopA] : List Stop).length = 1 := by
  constructor
  · simp [calcManualGroup, calcManualSorted, calcManualStep, sortStops,
      resolveNone]
  · rfl

/-- C2 (amended): the Excel itinerary accumulator (`process_group` in
`tms_excel_processor.py`, identical in `app.py`'s Excel path) never
drops a stop: for K input stops and any mix of address-resolution and
route outcomes it emits exactly K rows, one per input stop — the i-th
row carries the i-th sorted stop's sequence and customer name — and the
rows appear in ascending-sequence order; the manual-entry loop of
`app.py`, by contrast, emits rows only for fully successful stops (see
the counterexample). -/
theorem c2_excel_accumulator (resolve : Resolver) (route : Router)
    (g : String) (ox oy : ℚ) (stops : List Stop) :
    (processGroup resolve route g ox oy stops).1.length = stops.length ∧
    (sortStops stops).Perm stops ∧
    (∀ (i : ℕ) (r : SegmentResult),
      (processGroup resolve route g ox oy stops).1[i]? = some r →
      ∃ s : Stop, (sortStops stops)[i]? = some s ∧ r.vehicle = g ∧
        r.seq = s.seq ∧ r.toLabel = s.name) ∧
    List.Pairwise (fun a b : SegmentResult => a.seq ≤ b.seq)
      (processGroup resolve route g ox oy stops).1 := by
  have hlen : (processGroup resolve route g ox oy stops).1.length =
      (sortStops stops).length :=
    processSorted_length resolve route g ⟨ox, oy, "상차지", 0, 0⟩
      (sortStops stops)
  have hperm := sortStops_perm stops
  have hpt : ∀ (i : ℕ) (r : SegmentResult),
      (processGroup resolve route g ox oy stops).1[i]? = some r →
      ∃ s : Stop, (sortStops stops)[i]? = some s ∧ r.vehicle = g ∧
      r.seq = s.seq ∧ r.toLabel = s.name :=
    fun i r hr => processSorted_pointwise resolve route g
      ⟨ox, oy, "상차지", 0, 0⟩ (sortStops stops) i r hr
  refine ⟨by rw [hlen, hperm.length_eq], hperm, hpt, ?_⟩
  have hmap : (processGroup resolve route g ox oy stops).1.map
      (fun r => r.seq) = (sortStops stops).map (fun s => s.seq) := by
    apply List.ext_getElem?
    intro n
    rw [List.getElem?_map, List.getElem?_map]
    cases hn : (processGroup resolve route g ox oy stops).1[n]? with
    | none =>
      have h1 : (processGroup resolve route g ox oy stops).1.length ≤ n :=
        List.getElem?_eq_none_iff.mp hn
      have h2 : (sortStops stops)[n]? = none :=
        List.getElem?_eq_none_iff.mpr (by omega)
      rw [h2]
      rfl
    | some r =>
      obtain ⟨s, hs, _, hseq, _⟩ := hpt n r hn
      rw [hs]
      simp [hseq]
  have hsorted : List.Pairwise (fun a b : Int => a ≤ b)
      ((sortStops stops).map (fun s => s.seq)) :=
    List.pairwise_map.mpr (sortStops_sorted stops)
  rw [← hmap] at hsorted
  exact List.pairwise_map.mp hsorted

/-- C2 (witness): on the two-stop list [stopB, stopA] with every
address resolving and every route succeeding, the Excel accumulator
emits exactly two rows. -/
theorem c2_witness :
    (processGroup resolveAll routeFix "1호차" 0 0 [stopB, stopA]).1.length
      = 2 := by
  have h := (c2_excel_accumulator resolveAll routeFix "1호차" 0 0
    [stopB, stopA]).1
  simpa using h

/-- Half-even rounding never goes below the floor. -/
theorem roundHalfEven_ge_floor (q : ℚ) :
    Int.floor q ≤ roundHalfEven q := by
  unfold roundHalfEven
  split_ifs <;> omega

/-- Half-even rounding never exceeds the floor plus one. -/
theorem roundHalfEven_le_floor_add_one (q : ℚ) :
    roundHalfEven q ≤ Int.floor q + 1 := by
  unfold roundHalfEven
  split_ifs <;> omega

/-- Half-even rounding is monotone. -/
theorem roundHalfEven_mono {a b : ℚ} (hab : a ≤ b) :
    roundHalfEven a ≤ roundHalfEven b := by
  rcases lt_or_le (Int.floor a) (Int.floor b) with hf | hf
  · have h1 := roundHalfEven_le_floor_add_one a
    have h2 := roundHalfEven_ge_floor b
    omega
  · have hfe : Int.floor b = Int.floor a :=
      le_antisymm hf (Int.floor_le_floor hab)
    unfold roundHalfEven
    rw [hfe]
    split_ifs <;> first | omega | (exfalso; linarith)

/-- The km conversion written to the result cells is monotone. -/
theorem metersToKmTenths_mono {a b : Int} (h : a ≤ b) :
    metersToKmTenths a ≤ metersToKmTenths b := by
  unfold metersToKmTenths
  apply roundHalfEven_mono
  have h2 : (a : ℚ) ≤ (b : ℚ) := by exact_mod_cast h
  linarith

/-- The (hours, minutes) duration cell, read back as total minutes, is
the floor of seconds over 60. -/
theorem formatDuration_minutes (s : Int) :
    (formatDuration s).1 * 60 + (formatDuration s).2 = s / 60 := by
  unfold formatDuration
  omega

/-- C5 (counterexample): the claim that the cumulative fields of the
emitted rows equal the exact sums of prior successful segments is false
for the cells actually written: a single successful segment of 1234 m /
90 s yields an internal cumulative total of exactly (1234, 90), but the
row's 누적거리(km) cell holds 1.2 km (12 tenths, i.e. 1200 m, not
1234 m) and its 누적시간 cell holds "1분" (0 h 1 min, i.e. 60 s, not
90 s) — the emitted cells are rounded conversions, not the exact sums. -/
theorem c5_counterexample :
    ((processGroup resolveAll routeFix "1호차" 0 0 [stopA]).1.map
      (fun r => r.cumDist)) = [1234] ∧
    ((processGroup resolveAll routeFix "1호차" 0 0 [stopA]).1.map
      (fun r => SegmentResult.cumDistDisplay r)) = [12] ∧
    (12 : ℚ) * 100 ≠ (1234 : ℚ) ∧
    ((processGroup resolveAll routeFix "1호차" 0 0 [stopA]).1.map
      (fun r => r.cumDur)) = [90] ∧
    ((processGroup resolveAll routeFix "1호차" 0 0 [stopA]).1.map
      (fun r => SegmentResult.cumDurDisplay r)) = [(0, 1)] ∧
    (0 : Int) * 3600 + 1 * 60 ≠ 90 := by
  have hrow : (processGroup resolveAll routeFix "1호차" 0 0 [stopA]).1 =
      [⟨"1호차", 1, "상차지", "강남 물류센터", some 1234, some 90,
        1234, 90, ""⟩] := by
    simp [processGroup, processSorted, processStop, sortStops, seqLe,
      resolveAll, routeFix, stopA, List.mergeSort]
  refine ⟨by rw [hrow]; rfl, ?_, by norm_num, by rw [hrow]; rfl,
    by rw [hrow]; decide, by decide⟩
  rw [hrow]
  simp only [List.map_cons, List.map_nil, SegmentResult.cumDistDisplay,
    metersToKmTenths, roundHalfEven]
  norm_num

/-- C5 (amended): provided the route oracle reports non-negative
distances and durations (the provider interface's contract, and
guaranteed for distances by `calculate_route` itself), the cumulative
totals carried by the emitted rows of the Excel itinerary accumulator
(1) equal, exactly, the integer sum of the distances/durations of all
successful segments so far (failed rows contribute nothing), (2) are
monotonically non-decreasing along the row list — as are the rounded
누적거리(km) and 누적시간 cells derived from them — and (3) are left
unchanged by a failed row.  The cells actually written are the rounded
conversions of these exact totals, not the raw meter/second sums (see
the counterexample). -/
theorem c5_cumulative_totals (resolve : Resolver) (route : Router)
    (g : String) (ox oy : ℚ) (stops : List Stop)
    (hroute : ∀ a b u v dist dur, route a b u v = some (dist, dur) →
      0 ≤ dist ∧ 0 ≤ dur) :
    (∀ (i : ℕ) (r : SegmentResult),
      (processGroup resolve route g ox oy stops).1[i]? = some r →
      r.cumDist = (((processGroup resolve route g ox oy stops).1.take
        (i + 1)).map segDistContribution).sum ∧
      r.cumDur = (((processGroup resolve route g ox oy stops).1.take
        (i + 1)).map segDurContribution).sum) ∧
    (∀ (i j : ℕ) (ri rj : SegmentResult), i ≤ j →
      (processGroup resolve route g ox oy stops).1[i]? = some ri →
      (processGroup resolve route g ox oy stops).1[j]? = some rj →
      ri.cumDist ≤ rj.cumDist ∧ ri.cumDur ≤ rj.cumDur ∧
      SegmentResult.cumDistDisplay ri ≤ SegmentResult.cumDistDisplay rj ∧
      (SegmentResult.cumDurDisplay ri).1 * 60 +
          (SegmentResult.cumDurDisplay ri).2 ≤
        (SegmentResult.cumDurDisplay rj).1 * 60 +
          (SegmentResult.cumDurDisplay rj).2) ∧
    (∀ (i : ℕ) (ri rj : SegmentResult),
      (processGroup resolve route g ox oy stops).1[i]? = some ri →
      (processGroup resolve route g ox oy stops).1[i + 1]? = some rj →
      rj.segDist = none → rj.segDur = none →
      rj.cumDist = ri.cumDist ∧ rj.cumDur = ri.cumDur) := by
  have part1 : ∀ (i : ℕ) (r : SegmentResult),
      (processGroup resolve route g ox oy stops).1[i]? = some r →
      r.cumDist = (((processGroup resolve route g ox oy stops).1.take
        (i + 1)).map segDistContribution).sum ∧
      r.cumDur = (((processGroup resolve route g ox oy stops).1.take
        (i + 1)).map segDurContribution).sum := by
    intro i r hr
    have h := processSorted_cum resolve route g ⟨ox, oy, "상차지", 0, 0⟩
      (sortStops stops) i r hr
    constructor
    · have h1 := h.1
      simpa using h1
    · have h2 := h.2
      simpa using h2
  have hnn : ∀ r ∈ (processGroup resolve route g ox oy stops).1,
      0 ≤ segDistContribution r ∧ 0 ≤ segDurContribution r :=
    fun r hr => processSorted_contribution_nonneg resolve route g
      ⟨ox, oy, "상차지", 0, 0⟩ (sortStops stops) hroute r hr
  have part2 : ∀ (i j : ℕ) (ri rj : SegmentResult), i ≤ j →
      (processGroup resolve route g ox oy stops).1[i]? = some ri →
      (processGroup resolve route g ox oy stops).1[j]? = some rj →
      ri.cumDist ≤ rj.cumDist ∧ ri.cumDur ≤ rj.cumDur := by
    intro i j ri rj hij hi hj
    obtain ⟨hdi, hti⟩ := part1 i ri hi
    obtain ⟨hdj, htj⟩ := part1 j rj hj
    have hsplit : (processGroup resolve route g ox oy stops).1.take
        (j + 1) = (processGroup resolve route g ox oy stops).1.take
        (i + 1) ++ (((processGroup resolve route g ox oy stops).1.drop
        (i + 1)).take (j - i)) := by
      rw [← List.take_add]
      congr 1
      omega
    have hsub : ∀ x ∈ ((processGroup resolve route g ox oy
        stops).1.drop (i + 1)).take (j - i),
        x ∈ (processGroup resolve route g ox oy stops).1 := by
      intro x hx
      exact List.drop_subset _ _ (List.take_subset _ _ hx)
    constructor
    · rw [hdi, hdj, hsplit, List.map_append, List.sum_append]
      have : 0 ≤ ((((processGroup resolve route g ox oy stops).1.drop
          (i + 1)).take (j - i)).map segDistContribution).sum := by
        apply List.sum_nonneg
        intro x hx
        obtain ⟨y, hy, rfl⟩ := List.mem_map.mp hx
        exact (hnn y (hsub y hy)).1
      omega
    · rw [hti, htj, hsplit, List.map_append, List.sum_append]
      have : 0 ≤ ((((processGroup resolve route g ox oy stops).1.drop
          (i + 1)).take (j - i)).map segDurContribution).sum := by
        apply List.sum_nonneg
        intro x hx
        obtain ⟨y, hy, rfl⟩ := List.mem_map.mp hx
        exact (hnn y (hsub y hy)).2
      omega
  refine ⟨part1, ?_, ?_⟩
  · intro i j ri rj hij hi hj
    obtain ⟨hd, ht⟩ := part2 i j ri rj hij hi hj
    refine ⟨hd, ht, metersToKmTenths_mono hd, ?_⟩
    unfold SegmentResult.cumDurDisplay
    rw [formatDuration_minutes, formatDuration_minutes]
    omega
  · intro i ri rj hi hj hsd hsu
    obtain ⟨hdi, hti⟩ := part1 i ri hi
    obtain ⟨hdj, htj⟩ := part1 (i + 1) rj hj
    have htake : (processGroup resolve route g ox oy stops).1.take
        (i + 1 + 1) = (processGroup resolve route g ox oy stops).1.take
        (i + 1) ++ [rj] := by
      rw [List.take_succ, hj]
      rfl
    constructor
    · rw [hdj, htake, List.map_append, List.sum_append, hdi]
      simp [segDistContribution, hsd]
    · rw [htj, htake, List.map_append, List.sum_append, hti]
      simp [segDurContribution, hsu]

/-- C5 (witness): on the one-stop list [stopA] with the 1234 m / 90 s
route oracle, the first emitted row's cumulative total equals the sum of
the contributions of the rows so far. -/
theorem c5_witness :
    ((processGroup resolveAll routeFix "1호차" 0 0 [stopA]).1[0]?).map
      (fun r => r.cumDist) =
    some ((((processGroup resolveAll routeFix "1호차" 0 0
      [stopA]).1.take 1).map segDistContribution).sum) := by
  have hroutenn : ∀ a b u v dist dur,
      routeFix a b u v = some (dist, dur) → 0 ≤ dist ∧ 0 ≤ dur := by
    intro a b u v dist dur hh
    simp only [routeFix, Option.some.injEq, Prod.mk.injEq] at hh
    omega
  have h := (c5_cumulative_totals resolveAll routeFix "1호차" 0 0 [stopA]
    hroutenn).1
  cases hr : (processGroup resolveAll routeFix "1호차" 0 0 [stopA]).1[0]?
    with
  | none =>
    exfalso
    have hlen : (processGroup resolveAll routeFix "1호차" 0 0
        [stopA]).1.length ≤ 0 := List.getElem?_eq_none_iff.mp hr
    have hlen2 : (processGroup resolveAll routeFix "1호차" 0 0
        [stopA]).1.length = 1 := by
      have h1 : (processGroup resolveAll routeFix "1호차" 0 0
          [stopA]).1.length = (sortStops [stopA]).length :=
        processSorted_length resolveAll routeFix "1호차"
          ⟨0, 0, "상차지", 0, 0⟩ (sortStops [stopA])
      have hp : (sortStops [stopA]).length = 1 :=
        (sortStops_perm [stopA]).length_eq
      omega
    omega
  | some r =>
    have h2 := h 0 r hr
    exact congrArg some h2.1

/-- C6: the accumulator's cursor update rule, read off one loop step of
`process_group` / `calc_excel`.  When the stop's address fails to
resolve, the emitted row has no distance/duration cells, note
"주소 확인 필요" (the "address unresolved" note), unchanged cumulative
totals, and the cursor label advances to the stop's customer name while
the cursor coordinate stays put.  When the address resolves but
`calculate_route` returns `None`, the row has note "경로 계산 실패"
(the "route computation failed" note), unchanged cumulative totals, and
both the cursor coordinate and label advance to the newly resolved
point. -/
theorem c6_cursor_update (resolve : Resolver) (route : Router)
    (g : String) (st : GState) (s : Stop) :
    (resolve s.address = none →
      (processStop resolve route g st s).1.segDist = none ∧
      (processStop resolve route g st s).1.segDur = none ∧
      (processStop resolve route g st s).1.note = "주소 확인 필요" ∧
      (processStop resolve route g st s).1.cumDist = st.cumDist ∧
      (processStop resolve route g st s).1.cumDur = st.cumDur ∧
      (processStop resolve route g st s).2.label = s.name ∧
      (processStop resolve route g st s).2.x = st.x ∧
      (processStop resolve route g st s).2.y = st.y ∧
      (processStop resolve route g st s).2.cumDist = st.cumDist ∧
      (processStop resolve route g st s).2.cumDur = st.cumDur) ∧
    (∀ (dx dy : ℚ) (f : String), resolve s.address = some (dx, dy, f) →
      route st.x st.y dx dy = none →
      (processStop resolve route g st s).1.segDist = none ∧
      (processStop resolve route g st s).1.segDur = none ∧
      (processStop resolve route g st s).1.note = "경로 계산 실패" ∧
      (processStop resolve route g st s).1.cumDist = st.cumDist ∧
      (processStop resolve route g st s).1.cumDur = st.cumDur ∧
      (processStop resolve route g st s).2.label = s.name ∧
      (processStop resolve route g st s).2.x = dx ∧
      (processStop resolve route g st s).2.y = dy ∧
      (processStop resolve route g st s).2.cumDist = st.cumDist ∧
      (processStop resolve route g st s).2.cumDur = st.cumDur) := by
  constructor
  · intro h
    simp [processStop, h]
  · intro dx dy f h1 h2
    simp [processStop, h1, h2]

/-- C6 (witness): at a concrete state and stop, the unresolved-address
step keeps the coordinate at (7, 8) while relabelling, and the
failed-route step advances the coordinate to the resolved (5, 6). -/
theorem c6_witness :
    (processStop resolveNone routeNone "1호차" ⟨7, 8, "상차지", 0, 0⟩
      stopA).1.note = "주소 확인 필요" ∧
    (processStop resolveNone routeNone "1호차" ⟨7, 8, "상차지", 0, 0⟩
      stopA).2.x = 7 ∧
    (processStop resolveNone routeNone "1호차" ⟨7, 8, "상차지", 0, 0⟩
      stopA).2.label = "강남 물류센터" ∧
    (processStop resolveAll routeNone "1호차" ⟨7, 8, "상차지", 0, 0⟩
      stopA).1.note = "경로 계산 실패" ∧
    (processStop resolveAll routeNone "1호차" ⟨7, 8, "상차지", 0, 0⟩
      stopA).2.x = 5 := by
  have h1 := (c6_cursor_update resolveNone routeNone "1호차"
    ⟨7, 8, "상차지", 0, 0⟩ stopA).1 rfl
  have h2 := (c6_cursor_update resolveAll routeNone "1호차"
    ⟨7, 8, "상차지", 0, 0⟩ stopA).2 5 6 stopA.address rfl rfl
  exact ⟨h1.2.2.1, h1.2.2.2.2.2.2.1, h1.2.2.2.2.2.1, h2.2.2.1,
    h2.2.2.2.2.2.2.1⟩

/-- C8 (counterexample): the claim "a stop list missing required fields
is rejected before any network call" is false for the Excel CLI: on a
file whose columns are missing 운행순번, the option-2 flow first
geocodes the origin address — a network call (`validate_address` inside
`get_origin_address`) — and only afterwards reads the file and emits
the rejection naming the missing column. -/
theorem c8_counterexample :
    cliValidationTrace "서울특별시 중구 세종대로 110"
      ["배송호차", "거래처명", "거래처주소"] =
      [Event.geocode "서울특별시 중구 세종대로 110",
       Event.reject ["운행순번"]] ∧
    Event.isNetwork (Event.geocode "서울특별시 중구 세종대로 110") =
      true := by
  constructor
  · simp [cliValidationTrace, missingColumns, requiredColumns]
  · rfl

/-- C8 (amended): a stop list missing required columns is always
rejected with an error naming exactly the columns absent from the
input, before any per-stop network call: in the web app's upload
handler the check involves no network call at all, while in the Excel
CLI the only network interaction preceding the rejection is the origin
geocoding — no stop is geocoded and no route is probed. -/
theorem c8_validation_order (originAddr : String) (present : List String)
    (h : missingColumns present ≠ []) :
    cliValidationTrace originAddr present =
      [Event.geocode originAddr, Event.reject (missingColumns present)] ∧
    (∀ e ∈ cliValidationTrace originAddr present, e.isNetwork = true →
      e = Event.geocode originAddr) ∧
    uploadValidation present = some (missingColumns present) ∧
    (∀ col, col ∈ missingColumns present ↔
      (col ∈ requiredColumns ∧ present.contains col = false)) := by
  refine ⟨by simp [cliValidationTrace, h], ?_,
    by simp [uploadValidation, h], ?_⟩
  · intro e he hnet
    simp only [cliValidationTrace, h, if_false, List.mem_cons,
      List.mem_singleton] at he
    rcases he with rfl | he
    · rfl
    · rcases he with rfl | he
      · simp [Event.isNetwork] at hnet
      · simp at he
  · intro col
    unfold missingColumns
    rw [List.mem_filter]
    simp

/-- C8 (witness): a file presenting only the 배송호차 column is
rejected by the upload handler with exactly the other three required
column names. -/
theorem c8_witness :
    uploadValidation ["배송호차"] =
      some ["운행순번", "거래처명", "거래처주소"] := by
  have h := (c8_validation_order "서울특별시 중구 세종대로 110"
    ["배송호차"] (by simp [missingColumns, requiredColumns])).2.2.1
  rw [h]
  simp [missingColumns, requiredColumns]

/-- C9: the batch loop of `tms_excel_processor.main` (and of `app.py`'s
Excel path) emits exactly one 호차별요약 entry per distinct 배송호차
value present in the input — the summary list's vehicles are exactly
the distinct input vehicles, without duplicates — and each entry's
거래처수 equals the number of input rows of that vehicle's group,
whatever the resolution or route outcomes (the oracles are arbitrary). -/
theorem c9_one_summary_per_vehicle (resolve : Resolver) (route : Router)
    (ox oy : ℚ) (stops : List Stop) :
    (batchSummaries resolve route ox oy stops).map (fun u => u.vehicle) =
      vehicleIds stops ∧
    (vehicleIds stops).Nodup ∧
    (∀ v, v ∈ vehicleIds stops ↔ ∃ s ∈ stops, s.vehicle = v) ∧
    (∀ (i : ℕ) (u : VehicleSummary),
      (batchSummaries resolve route ox oy stops)[i]? = some u →
      u.stopCount =
        (stops.filter (fun s => s.vehicle == u.vehicle)).length) := by
  refine ⟨?_, List.nodup_dedup _, ?_, ?_⟩
  · unfold batchSummaries
    rw [List.map_map]
    exact List.map_id _
  · intro v
    unfold vehicleIds
    simp
  · intro i u hu
    unfold batchSummaries at hu
    rw [List.getElem?_map] at hu
    cases hv : (vehicleIds stops)[i]? with
    | none => rw [hv] at hu; simp at hu
    | some v =>
      rw [hv] at hu
      simp only [Option.map_some'] at hu
      have hu3 : u = ⟨v, (vehicleGroup stops v).length,
          (processGroup resolve route v ox oy (vehicleGroup stops v)).2.1,
          (processGroup resolve route v ox oy
            (vehicleGroup stops v)).2.2⟩ := Option.some_injective _ hu.symm
      subst hu3
      rfl

/-- C9 (witness): with both stops on vehicle 1호차 and both oracles
failing, the single summary still counts two stops. -/
theorem c9_witness :
    ((batchSummaries resolveNone routeNone 0 0 [stopA, stopB])[0]?).map
      (fun u => u.stopCount) =
    some (([stopA, stopB].filter
      (fun s => s.vehicle == "1호차")).length) := by
  have h0 : (batchSummaries resolveNone routeNone 0 0
      [stopA, stopB])[0]? = some ⟨"1호차", 2, 0, 0⟩ := by
    simp [batchSummaries, vehicleIds, vehicleGroup, processGroup,
      processSorted, processStop, sortStops, seqLe, resolveNone,
      stopA, stopB, List.dedup, List.mergeSort]
  have h := (c9_one_summary_per_vehicle resolveNone routeNone 0 0
    [stopA, stopB]).2.2.2 0 ⟨"1호차", 2, 0, 0⟩ h0
  rw [h0]
  exact congrArg some h
